import Mathlib

/-!
Verification development for the Crystal Grimoire backend
(`backend/demo_backend.py` and `backend/unified_backend.py`).

The Python handlers are shallowly embedded as pure Lean functions:

* Python strings are modelled as Lean `String` (a list of characters);
  `str.lower()` / `str.title()` are modelled on the ASCII range, which is
  exactly the range exercised by the embedded data tables and by the code's
  own string constants.
* `random.choice` / `random.uniform` / `uuid` values are passed in as
  explicit oracle arguments, so the functions stay deterministic.
* External services (Firestore, Stripe, the LLM vendors) are passed in as
  explicit state or as function-valued stubs; an HTTP call that the code
  makes to a vendor is modelled by applying the stub.
* `raise HTTPException(status, detail)` is modelled as `Except.error` with
  an `HTTPError` value; an uncaught Python runtime exception (which FastAPI
  turns into a 500) is modelled by a distinguished error value.
-/

namespace CrystalGrimoire

/-! ## Python string primitives (ASCII model) -/

/-- `str.lower()` on one character, ASCII range (matches CPython for the
data in this repository, which is pure ASCII). -/
def lowerChar (c : Char) : Char :=
  if 65 ≤ c.toNat ∧ c.toNat ≤ 90 then Char.ofNat (c.toNat + 32) else c

/-- `str.upper()` on one character, ASCII range. -/
def upperChar (c : Char) : Char :=
  if 97 ≤ c.toNat ∧ c.toNat ≤ 122 then Char.ofNat (c.toNat - 32) else c

/-- ASCII letter test (`str.title()` word-boundary test, ASCII model). -/
def alphaChar (c : Char) : Bool :=
  (65 ≤ c.toNat && c.toNat ≤ 90) || (97 ≤ c.toNat && c.toNat ≤ 122)

/-- `str.lower()` (ASCII model). -/
def pyLower (s : String) : String :=
  ⟨s.data.map lowerChar⟩

/-- Helper for `str.title()`: the `Bool` records whether the previous
character was alphabetic (then the current letter is lowered, otherwise
it is uppered). -/
def pyTitleAux : Bool → List Char → List Char
  | _, [] => []
  | prevAlpha, c :: cs =>
    (if alphaChar c then (if prevAlpha then lowerChar c else upperChar c) else c)
      :: pyTitleAux (alphaChar c) cs

/-- `str.title()` (ASCII model). -/
def pyTitle (s : String) : String :=
  ⟨pyTitleAux false s.data⟩

/-- Is `needle` a prefix of `hay`? -/
def prefixAt : List Char → List Char → Bool
  | [], _ => true
  | _ :: _, [] => false
  | p :: ps, c :: cs => (p == c) && prefixAt ps cs

/-- Python's substring test `needle in hay`. -/
def containsSub : List Char → List Char → Bool
  | [], needle => needle.isEmpty
  | c :: t, needle => prefixAt needle (c :: t) || containsSub t needle

/-- Python's `needle in hay` on strings. -/
def strContains (hay needle : String) : Bool :=
  containsSub hay.data needle.data

/-- Python's `s.startswith(pre)`. -/
def strStartsWith (s pre : String) : Bool :=
  prefixAt pre.data s.data

/-- Python's `s.split(sep)` (single-character separator, all occurrences);
`"".split(sep) = [""]`. -/
def splitOnChar (sep : Char) : List Char → List (List Char)
  | [] => [[]]
  | c :: t =>
    if c == sep then [] :: splitOnChar sep t
    else
      match splitOnChar sep t with
      | [] => [[c]]
      | h :: r => (c :: h) :: r

/-- Python's `s.split('\n')` on strings. -/
def pySplitLines (s : String) : List String :=
  (splitOnChar '\n' s.data).map fun l => ⟨l⟩

/-- Python's `s.split(',')` on strings. -/
def pySplitComma (s : String) : List String :=
  (splitOnChar ',' s.data).map fun l => ⟨l⟩

/-- Python's `s.split(sep, 1)[1]`: everything after the first occurrence
of `sep` (callers below only use it when `sep` is known to occur). -/
def afterFirst (sep : Char) : List Char → List Char
  | [] => []
  | c :: t => if c == sep then t else afterFirst sep t

/-- Python's `s.split(':', 1)[1]` on strings. -/
def pyAfterColon (s : String) : String :=
  ⟨afterFirst ':' s.data⟩

/-- Python whitespace for `str.strip()`. -/
def pySpace (c : Char) : Bool :=
  c == ' ' || c == '\t' || c == '\n' || c == '\r' || c == '\x0b' || c == '\x0c'

/-- Python's `s.strip()`. -/
def pyStrip (s : String) : String :=
  ⟨(((s.data.dropWhile pySpace).reverse).dropWhile pySpace).reverse⟩

/-- Python's `dict.get(k)` on a string-keyed mapping (`None` when the key
is absent), modelled over an association list with distinct keys. -/
def pyDictFind (d : List (String × String)) (k : String) : Option String :=
  match d with
  | [] => none
  | (a, b) :: t => if k = a then some b else pyDictFind t k

/-- Python's `dict.get(k, default)`. -/
def pyDictGetD (d : List (String × String)) (k dflt : String) : String :=
  (pyDictFind d k).getD dflt

/-- `raise HTTPException(status_code, detail)`. -/
structure HTTPError where
  status : Nat
  detail : String
deriving DecidableEq, Repr

/-! ## Demo backend: static data (`demo_backend.py`, lines 18-68) -/

structure DemoCrystal where
  name : String
  type : String
  color : String
  chakra : String
  properties : List String
  zodiac_compatibility : List String
  description : String
deriving DecidableEq, Repr

def amethyst : DemoCrystal :=
  { name := "Amethyst", type := "Quartz", color := "Purple", chakra := "Crown"
    properties := ["Spiritual protection", "Enhanced intuition", "Stress relief"]
    zodiac_compatibility := ["Pisces", "Virgo", "Aquarius"]
    description := "A powerful protective stone that transforms negative energy into love." }

def roseQuartz : DemoCrystal :=
  { name := "Rose Quartz", type := "Quartz", color := "Pink", chakra := "Heart"
    properties := ["Unconditional love", "Emotional healing", "Self-compassion"]
    zodiac_compatibility := ["Taurus", "Libra"]
    description := "The stone of unconditional love, promoting deep inner healing." }

def clearQuartz : DemoCrystal :=
  { name := "Clear Quartz", type := "Quartz", color := "Clear", chakra := "Crown"
    properties := ["Amplification", "Clarity", "Energy cleansing"]
    zodiac_compatibility := ["All signs"]
    description := "The master healer that amplifies energy and brings clarity." }

def DEMO_CRYSTALS : List DemoCrystal :=
  [amethyst, roseQuartz, clearQuartz]

def DEMO_HOROSCOPES : List (String × String) :=
  [("aries", "Today brings fiery energy perfect for new beginnings. Your ruling planet Mars encourages bold action."),
   ("taurus", "Venus blesses you with harmony and beauty today. Focus on material stability and sensual pleasures."),
   ("gemini", "Mercury enhances your communication skills. It's a perfect day for learning and social connections."),
   ("cancer", "The Moon illuminates your emotional depths. Trust your intuition and nurture those you love."),
   ("leo", "The Sun radiates through you today. Step into your power and let your creativity shine brightly."),
   ("virgo", "Earth energy grounds you in practical matters. Pay attention to details and health routines."),
   ("libra", "Venus brings balance to relationships. Seek harmony and beauty in all your interactions."),
   ("scorpio", "Pluto stirs transformative energies. Embrace change and dive deep into mysteries."),
   ("sagittarius", "Jupiter expands your horizons. Adventure and higher learning call to your spirit."),
   ("capricorn", "Saturn supports your ambitions. Structure and discipline lead to lasting achievements."),
   ("aquarius", "Uranus sparks innovation. Think outside the box and embrace your unique perspective."),
   ("pisces", "Neptune enhances your psychic abilities. Dreams and intuition guide your way forward.")]

def DEMO_GUIDANCE_RESPONSES : List String :=
  ["Based on your spiritual profile, I sense you're entering a period of deep transformation. The crystals in your collection, particularly amethyst, are perfectly aligned with your current energy. Consider placing amethyst under your pillow tonight to enhance dream clarity.",
   "Your birth chart shows strong water element influence, which resonates beautifully with rose quartz energy. This is an excellent time for heart chakra healing work. Try holding rose quartz during meditation and focus on self-love affirmations.",
   "The current lunar phase supports releasing old patterns. Clear quartz would be perfect for this work - it will amplify your intentions while cleansing stagnant energy. Create a simple crystal grid with your clear quartz at the center.",
   "I notice Scorpio influence in your chart, suggesting you're naturally drawn to transformation work. Black tourmaline would be a powerful addition to your collection for protection during this deep spiritual work."]

/-! ## Demo backend: request models and endpoints (`demo_backend.py`) -/

/-- `CrystalIdentificationRequest` (demo): `user_context` is
`Optional[Dict[str, Any]]`, so an explicit JSON `null` arrives as `none`
(the pydantic default `{}` only applies when the field is absent).
The `Any` values exercised by the handler are strings. -/
structure DemoIdentifyRequest where
  image_base64 : Option String
  description : String
  user_context : Option (List (String × String))

/-- An uncaught Python runtime exception escaping a handler (FastAPI turns
it into a 500 internal error). -/
inductive PyExn where
  | attributeErrorNoneGet
deriving DecidableEq, Repr

/-- The crystal-matching scan of `identify_crystal` (demo, lines 126-129):
first entry whose lowered name or lowered color occurs in the lowered
description. -/
def crystalMatches (descLower : List Char) (c : DemoCrystal) : Bool :=
  containsSub descLower (pyLower c.name).data || containsSub descLower (pyLower c.color).data

/-- `best_match` of `identify_crystal` (demo, lines 123-129): scan
`DEMO_CRYSTALS` in order, defaulting to the first entry (Amethyst). -/
def findBestMatch (description : String) : DemoCrystal :=
  (DEMO_CRYSTALS.find? (crystalMatches (pyLower description).data)).getD amethyst

/-- The zodiac-compatibility test of `identify_crystal` (demo, line 133):
`user_zodiac.title() in best_match["zodiac_compatibility"]`
(list membership, not substring). -/
def zodiacMatch (user_zodiac : String) (c : DemoCrystal) : Bool :=
  c.zodiac_compatibility.contains (pyTitle user_zodiac)

/-- Deterministic part of the demo identify response (`confidence` is a
random float carrying no semantic contract and is omitted). -/
structure DemoIdentifyResp where
  success : Bool
  crystal : DemoCrystal
  zodiac_compatibility : Bool
  chakra_alignment : String
  recommendation : String
  usage_remaining : Nat
deriving Repr

/-- `identify_crystal` (demo, lines 114-152). When `user_context` is
`None`, the Python expression `request.user_context.get("zodiac_sign",
"unknown")` raises `AttributeError` (an uncaught 500), modelled as the
error branch. -/
def demo_identify_crystal (request : DemoIdentifyRequest) : Except PyExn DemoIdentifyResp :=
  let best_match := findBestMatch request.description
  match request.user_context with
  | none => .error .attributeErrorNoneGet
  | some ctx =>
    let user_zodiac := pyDictGetD ctx "zodiac_sign" "unknown"
    let zodiac_match := zodiacMatch user_zodiac best_match
    .ok
      { success := true
        crystal := best_match
        zodiac_compatibility := zodiac_match
        chakra_alignment := "This crystal resonates with your " ++ best_match.chakra ++ " chakra"
        recommendation :=
          if zodiac_match then "Perfect for " ++ user_zodiac ++ " energy!"
          else "A wonderful complement to " ++ user_zodiac ++ " energy"
        usage_remaining := 4 }

/-- Stress-bucket keyword test of `get_personalized_guidance`
(demo, line 165). -/
def stressBucket (queryLower : String) : Bool :=
  strContains queryLower "anxious" || strContains queryLower "stress"

/-- Love-bucket keyword test (demo, line 167). -/
def loveBucket (queryLower : String) : Bool :=
  strContains queryLower "love" || strContains queryLower "relationship"

/-- Transformation-bucket keyword test (demo, line 169). -/
def transformationBucket (queryLower : String) : Bool :=
  strContains queryLower "transformation" || strContains queryLower "change"

def stressGuidance : String :=
  DEMO_GUIDANCE_RESPONSES.headD ""
    ++ " For anxiety relief, try amethyst or rose quartz in a calming meditation."

def loveGuidance : String :=
  (DEMO_GUIDANCE_RESPONSES.getD 1 "")
    ++ " Rose quartz is your ally in matters of the heart."

def transformationGuidance : String :=
  (DEMO_GUIDANCE_RESPONSES.getD 2 "")
    ++ " Clear quartz will amplify your transformational work."

/-- The `guidance` string computed by `get_personalized_guidance`
(demo, lines 163-172). `random.choice` in the no-bucket branch is
modelled by the oracle index `randomIndex`. -/
def demo_guidance (query : String) (randomIndex : Fin 4) : String :=
  let query_lower := pyLower query
  if stressBucket query_lower then stressGuidance
  else if loveBucket query_lower then loveGuidance
  else if transformationBucket query_lower then transformationGuidance
  else DEMO_GUIDANCE_RESPONSES.get (Fin.cast (by decide) randomIndex)

/-- Deterministic part of the demo horoscope response (`daily_crystal` and
`lucky_numbers` are random presentation flavor and are omitted). -/
structure HoroscopeResp where
  success : Bool
  zodiac_sign : String
  horoscope : String
  compatible_crystals : List String
  spiritual_advice : String
deriving Repr

/-- The crystal-compatibility test of `get_horoscope` (demo, line 208). -/
def horoscopeCompatible (sign : String) (c : DemoCrystal) : Bool :=
  c.zodiac_compatibility.contains (pyTitle sign)
    || c.zodiac_compatibility.contains "All signs"

/-- `get_horoscope` (demo, lines 197-226). -/
def demo_get_horoscope (zodiac_sign : String) : Except HTTPError HoroscopeResp :=
  let sign := pyLower zodiac_sign
  match pyDictFind DEMO_HOROSCOPES sign with
  | none => .error ⟨400, "Invalid zodiac sign"⟩
  | some text =>
    let compatible_crystals := (DEMO_CRYSTALS.filter (horoscopeCompatible sign)).map (·.name)
    .ok
      { success := true
        zodiac_sign := pyTitle sign
        horoscope := text
        compatible_crystals := compatible_crystals
        spiritual_advice :=
          "Today's energy supports " ++ sign ++ " in manifestation work. Focus on your heart's desires." }

/-- Demo checkout response (`demo_backend.py`, lines 255-267). -/
structure DemoCheckoutResp where
  success : Bool
  checkout_url : String
  session_id : String
  tier : String
  price : String
deriving DecidableEq, Repr

def demoPrices : List (String × String) :=
  [("premium", "$9.99/month"), ("pro", "$19.99/month"), ("founders", "$199 lifetime")]

/-- `create_subscription_checkout` (demo, lines 242-267); `uuidHex` is the
oracle for `uuid.uuid4().hex[:16]`. -/
def demo_create_subscription_checkout (tier : String) (uuidHex : String) :
    Except HTTPError DemoCheckoutResp :=
  match pyDictFind demoPrices tier with
  | none => .error ⟨400, "Invalid subscription tier"⟩
  | some price =>
    .ok
      { success := true
        checkout_url := "https://demo-stripe-checkout.com/subscribe/" ++ tier
        session_id := "cs_demo_" ++ uuidHex
        tier := tier
        price := price }

/-! ## Unified backend (`unified_backend.py`) -/

/-- `SubscriptionTier` enum (lines 70-74). -/
inductive SubscriptionTier where
  | free
  | premium
  | pro
  | founders
deriving DecidableEq, Repr, Fintype

/-- `LLMProvider` enum (lines 76-79). -/
inductive LLMProvider where
  | openai
  | anthropic
  | google
deriving DecidableEq, Repr, Fintype

/-- The three `*_available` flags of `LLMService.__init__`
(lines 172-175): each is the presence of the vendor's API key. -/
structure LLMAvail where
  openai_available : Bool
  anthropic_available : Bool
  google_available : Bool
deriving DecidableEq, Repr

/-- The provider-selection prelude of `LLMService.generate_response`
(lines 180-187): tier-preferred vendor, then Google as the only fallback. -/
def selectProvider (svc : LLMAvail) (tier : SubscriptionTier)
    (provider : Option LLMProvider) : Option LLMProvider :=
  match provider with
  | some p => some p
  | none =>
    if tier = .pro ∧ svc.anthropic_available then some .anthropic
    else if tier = .premium ∧ svc.openai_available then some .openai
    else if svc.google_available then some .google
    else none

/-- `LLMService.generate_response` (lines 177-203), abstracting the
vendor HTTP exchange: the result records which vendor handles the call.
`provider = none` is the un-pinned case. -/
def generate_response (svc : LLMAvail) (tier : SubscriptionTier)
    (provider : Option LLMProvider) : Except HTTPError LLMProvider :=
  match selectProvider svc tier provider with
  | none => .error ⟨503, "No LLM provider available"⟩
  | some p => .ok p

/-- The caller profile fields used by the endpoints under verification. -/
structure UserP where
  id : String
  name : String
  subscription_tier : SubscriptionTier
deriving DecidableEq, Repr

/-- A Stripe checkout session as returned by the external provider. -/
structure StripeSession where
  id : String
  url : String
deriving DecidableEq, Repr

/-- The parts of Stripe `Config` used by checkout: the two optional
price-id environment variables (lines 46-47). -/
structure StripeCfg where
  premium_price_id : Option String
  pro_price_id : Option String
deriving DecidableEq, Repr

/-- `price_id_map` of `create_subscription_checkout` (lines 656-659). -/
def price_id_map (cfg : StripeCfg) : List (String × Option String) :=
  [("premium", cfg.premium_price_id), ("pro", cfg.pro_price_id)]

/-- Lookup in `price_id_map` (Python `tier in price_id_map` /
`price_id_map[tier]`). -/
def priceFor (cfg : StripeCfg) (tier : String) : Option (Option String) :=
  match price_id_map cfg with
  | [] => none
  | (a, b) :: t =>
    if tier = a then some b
    else match t with
      | [] => none
      | (a2, b2) :: _ => if tier = a2 then some b2 else none

structure CheckoutResp where
  success : Bool
  checkout_url : String
  session_id : String
deriving DecidableEq, Repr

/-- `create_subscription_checkout` (unified, lines 650-675), with the
external payments provider as the stub `gw` (a failing stub models a
Stripe exception, wrapped as a 400 by `StripeService`, line 335). The
second component counts calls to the external provider. -/
def create_subscription_checkout (cfg : StripeCfg)
    (gw : String → Option String → Except String StripeSession)
    (tier : String) (user : UserP) :
    Except HTTPError CheckoutResp × Nat :=
  match priceFor cfg tier with
  | none => (.error ⟨400, "Invalid subscription tier"⟩, 0)
  | some price_id =>
    match gw user.id price_id with
    | .error e => (.error ⟨400, e⟩, 1)
    | .ok session => (.ok ⟨true, session.url, session.id⟩, 1)

/-! ### Crystal collection store (Firestore model)

A document lives at `users/{user_id}/saved_crystals/{identification_id}`;
the database is an association list keyed by that pair, and Firestore's
`set` replaces the whole document at the key (an upsert). -/

/-- `SaveCrystalRequest` (lines 112-124). `Dict[str, Any]` payloads are
modelled as string-keyed association lists and datetimes as abstract
`Nat` timestamps. -/
structure SaveCrystalRequest where
  identification_id : String
  identified_at : Nat
  name : String
  variant_or_specific_name : Option String
  main_color : Option String
  brief_description : Option String
  crystal_details : List (String × String)
  raw_llm_response : String
  user_context_at_identification : Option (List (String × String))
  source : Option String
  api_version : Option String
  user_notes : Option String
deriving DecidableEq, Repr

/-- The stored document: `request.dict()` plus the two fields added
server-side (lines 624-626). -/
structure SavedDoc where
  identification_id : String
  identified_at : Nat
  name : String
  variant_or_specific_name : Option String
  main_color : Option String
  brief_description : Option String
  crystal_details : List (String × String)
  raw_llm_response : String
  user_context_at_identification : Option (List (String × String))
  source : Option String
  api_version : Option String
  user_notes : Option String
  user_id : String
  saved_at : Nat
deriving DecidableEq, Repr

/-- `data_to_save` (lines 624-626): the request body with `user_id` set to
the authenticated caller and `saved_at` set to the server clock. -/
def docOfRequest (r : SaveCrystalRequest) (uid : String) (now : Nat) : SavedDoc :=
  { identification_id := r.identification_id
    identified_at := r.identified_at
    name := r.name
    variant_or_specific_name := r.variant_or_specific_name
    main_color := r.main_color
    brief_description := r.brief_description
    crystal_details := r.crystal_details
    raw_llm_response := r.raw_llm_response
    user_context_at_identification := r.user_context_at_identification
    source := r.source
    api_version := r.api_version
    user_notes := r.user_notes
    user_id := uid
    saved_at := now }

/-- The Firestore slice touched by the collection endpoints. -/
abbrev FireDB := List ((String × String) × SavedDoc)

/-- Firestore `document(...).set(data)`: replace the document at the key. -/
def setDoc (db : FireDB) (k : String × String) (v : SavedDoc) : FireDB :=
  (k, v) :: db.filter fun p => p.1 != k

structure SaveResp where
  success : Bool
  message : String
  saved_crystal_id : String
deriving DecidableEq, Repr

/-- `save_crystal_to_collection` (lines 615-648). `dbOpt = none` models
`firebase_service.db` being `None`. Returns the updated store alongside
the HTTP response. -/
def save_crystal_to_collection (dbOpt : Option FireDB) (current_user : UserP)
    (now : Nat) (request : SaveCrystalRequest) :
    Except HTTPError (FireDB × SaveResp) :=
  match dbOpt with
  | none => .error ⟨503, "Database service not available."⟩
  | some db =>
    let data_to_save := docOfRequest request current_user.id now
    .ok (setDoc db (current_user.id, request.identification_id) data_to_save,
         ⟨true, "Crystal saved to collection", request.identification_id⟩)

structure CollectionResp where
  success : Bool
  user_id : String
  collection : List SavedDoc
  count : Nat
deriving DecidableEq, Repr

/-- `get_user_crystal_collection` (lines 581-613): the ownership check
precedes every storage access (including the availability check). -/
def get_user_crystal_collection (user_id : String) (current_user : UserP)
    (dbOpt : Option FireDB) : Except HTTPError CollectionResp :=
  if user_id ≠ current_user.id then
    .error ⟨403, "Not authorized to access this collection"⟩
  else
    match dbOpt with
    | none => .error ⟨503, "Database service not available"⟩
    | some db =>
      let docs := (db.filter fun p => p.1.1 == user_id).map (·.2)
      .ok ⟨true, user_id, docs, docs.length⟩

/-! ### Unified identify: best-effort parsing of the generated text
(lines 453-518) -/

structure CrystalDetails where
  name : String
  description : String
  properties : List String
  chakras : List String
  healing_applications : List String
deriving DecidableEq, Repr

/-- Accumulator of the line-scanning loop (lines 460-478). -/
structure ParseState where
  parsed_name : String
  parsed_description : String
  parsed_properties : List String
  parsed_chakras : List String
  parsed_healing : List String
deriving DecidableEq, Repr

/-- One iteration of the `for line in lines` loop (lines 466-478). -/
def parseLine (st : ParseState) (line : String) : ParseState :=
  let ll := pyLower line
  if strStartsWith ll "crystal name:" then
    { st with parsed_name := pyStrip (pyAfterColon line) }
  else if strStartsWith ll "name:" then
    { st with parsed_name := pyStrip (pyAfterColon line) }
  else if strStartsWith ll "description:" then
    { st with parsed_description := pyStrip (pyAfterColon line) }
  else if strStartsWith ll "metaphysical properties:" then
    { st with parsed_properties := (pySplitComma (pyAfterColon line)).map pyStrip }
  else if strStartsWith ll "chakras:" then
    { st with parsed_chakras := (pySplitComma (pyAfterColon line)).map pyStrip }
  else if strStartsWith ll "healing applications:" then
    { st with parsed_healing := (pySplitComma (pyAfterColon line)).map pyStrip }
  else st

/-- The structured-extraction attempt of `identify_crystal` (unified,
lines 456-500): `none` is Python's `crystal_details = None`. A non-empty
Python list is truthy, so the guard on line 488 is the disjunction below. -/
def parseCrystalDetails (response : String) : Option CrystalDetails :=
  let lines := pySplitLines response
  let st := lines.foldl parseLine
    { parsed_name := "Unknown Crystal", parsed_description := response
      parsed_properties := [], parsed_chakras := [], parsed_healing := [] }
  let parsed_name :=
    if st.parsed_name = "Unknown Crystal" ∧ lines ≠ [] then
      let first_line := pyStrip (lines.headD "")
      if first_line.length < 100 then first_line else st.parsed_name
    else st.parsed_name
  if parsed_name ≠ "Unknown Crystal" ∨ st.parsed_properties ≠ []
      ∨ st.parsed_chakras ≠ [] ∨ st.parsed_healing ≠ [] then
    some
      { name := parsed_name
        description :=
          if st.parsed_description ≠ response then st.parsed_description
          else if lines.length > 1 ∧ parsed_name = pyStrip (lines.headD "") then
            lines.getD 1 ""
          else response
        properties := st.parsed_properties
        chakras := st.parsed_chakras
        healing_applications := st.parsed_healing }
  else none

/-- `Config` daily limits (lines 65-67). -/
structure UsageLimits where
  free_daily : Nat
  premium_daily : Nat
  pro_daily : Nat
deriving DecidableEq, Repr

/-- `_calculate_remaining_usage` (lines 685-694). -/
def calculate_remaining_usage (cfg : UsageLimits) : SubscriptionTier → Nat
  | .free => cfg.free_daily
  | .premium => cfg.premium_daily
  | .pro => cfg.pro_daily
  | .founders => 9999

/-- The unified identify response: the two return shapes (lines 502-518)
differ in which of `identification_raw` / `identification` is present. -/
structure IdentifyResp where
  success : Bool
  identification_raw : Option String
  identification : Option String
  crystal_details : Option CrystalDetails
  identification_id : String
  usage_remaining : Nat
deriving DecidableEq, Repr

/-- Response assembly of `identify_crystal` (unified, lines 451-518),
taking the upstream generated text `response` (the LLM exchange itself is
abstracted) and the freshly drawn `identification_id`. -/
def unified_identify_response (cfg : UsageLimits) (tier : SubscriptionTier)
    (response : String) (identification_id : String) : IdentifyResp :=
  match parseCrystalDetails response with
  | some crystal_details =>
    { success := true
      identification_raw := some response
      identification := none
      crystal_details := some crystal_details
      identification_id := identification_id
      usage_remaining := calculate_remaining_usage cfg tier }
  | none =>
    { success := true
      identification_raw := none
      identification := some response
      crystal_details := none
      identification_id := identification_id
      usage_remaining := calculate_remaining_usage cfg tier }

/-- Decidable equality for `Except` results, used to state endpoint
outcomes decidably. -/
instance {ε α : Type} [DecidableEq ε] [DecidableEq α] : DecidableEq (Except ε α) := fun x y =>
  match x, y with
  | .error e, .error f =>
    if h : e = f then .isTrue (by rw [h]) else .isFalse fun hh => h (by cases hh; rfl)
  | .ok a, .ok b =>
    if h : a = b then .isTrue (by rw [h]) else .isFalse fun hh => h (by cases hh; rfl)
  | .error _, .ok _ => .isFalse fun hh => Except.noConfusion hh
  | .ok _, .error _ => .isFalse fun hh => Except.noConfusion hh

/-- Sample caller used to instantiate witness statements. -/
def sampleUser : UserP :=
  { id := "u1", name := "Ada", subscription_tier := .free }

/-- Sample save request used to instantiate witness statements. -/
def sampleReq : SaveCrystalRequest :=
  { identification_id := "id-1", identified_at := 0, name := "Amethyst"
    variant_or_specific_name := none, main_color := none, brief_description := none
    crystal_details := [], raw_llm_response := "raw"
    user_context_at_identification := none, source := some "llm_identification"
    api_version := some "2.0.0", user_notes := none }

/-! ## Helper lemmas -/

theorem toNat_charOfNat {n : Nat} (h : n < 55296) : (Char.ofNat n).toNat = n := by
  rw [Char.ofNat, dif_pos (Or.inl h)]
  rfl

/-- Spelled-out form of `alphaChar`. -/
theorem alphaChar_ranges {c : Char} (ha : alphaChar c = true) :
    (65 ≤ c.toNat ∧ c.toNat ≤ 90) ∨ (97 ≤ c.toNat ∧ c.toNat ≤ 122) := by
  simpa [alphaChar, Bool.or_eq_true, Bool.and_eq_true, decide_eq_true_eq] using ha

/-- One character of `str.title()`: a letter is mapped to a letter, so a
space in the output comes from a space in the input. -/
theorem titleChar_eq_space {b : Bool} {c : Char}
    (h : (if alphaChar c = true then (if b = true then lowerChar c else upperChar c) else c) = ' ') :
    alphaChar c = false ∧ c = ' ' := by
  by_cases ha : alphaChar c = true
  · exfalso
    have ha' := alphaChar_ranges ha
    rw [if_pos ha] at h
    have htn := congrArg Char.toNat h
    have h32 : (' ' : Char).toNat = 32 := by decide
    rw [h32] at htn
    cases b with
    | false =>
      rw [if_neg (by decide)] at htn
      rw [upperChar] at htn
      revert htn
      split <;> intro htn
      · rw [toNat_charOfNat (by omega)] at htn; omega
      · omega
    | true =>
      rw [if_pos rfl] at htn
      rw [lowerChar] at htn
      revert htn
      split <;> intro htn
      · rw [toNat_charOfNat (by omega)] at htn; omega
      · omega
  · rw [if_neg ha] at h
    exact ⟨Bool.not_eq_true _ ▸ ha, h⟩

/-- After a non-letter, `str.title()` upper-cases a letter, so it can
never emit a lower-case 's' there. -/
theorem titleChar_after_boundary_ne_s (c : Char) :
    (if alphaChar c = true then (if (false : Bool) = true then lowerChar c else upperChar c) else c) ≠ 's' := by
  intro h
  by_cases ha : alphaChar c = true
  · have ha' := alphaChar_ranges ha
    rw [if_pos ha, if_neg (by decide)] at h
    have htn := congrArg Char.toNat h
    have h115 : ('s' : Char).toNat = 115 := by decide
    rw [h115] at htn
    rw [upperChar] at htn
    revert htn
    split <;> intro htn
    · rw [toNat_charOfNat (by omega)] at htn; omega
    · omega
  · rw [if_neg ha] at h
    rw [h] at ha
    exact ha (by decide)

/-- `str.title()` output never contains the two-character substring
`" s"`: the character after a space is upper-cased. -/
theorem pyTitleAux_no_space_s (l : List Char) :
    ∀ (b : Bool) (t₁ t₂ : List Char), pyTitleAux b l ≠ t₁ ++ ' ' :: 's' :: t₂ := by
  induction l with
  | nil =>
    intro b t₁ t₂ h
    cases t₁ <;> simp [pyTitleAux] at h
  | cons c cs ih =>
    intro b t₁ t₂ h
    rw [pyTitleAux] at h
    cases t₁ with
    | nil =>
      simp only [List.nil_append, List.cons.injEq] at h
      obtain ⟨h1, h2⟩ := h
      obtain ⟨hna, -⟩ := titleChar_eq_space h1
      cases cs with
      | nil => simp [pyTitleAux] at h2
      | cons d ds =>
        rw [pyTitleAux] at h2
        simp only [List.cons.injEq] at h2
        rw [hna] at h2
        exact titleChar_after_boundary_ne_s d h2.1
    | cons x t₁' =>
      simp only [List.cons_append, List.cons.injEq] at h
      exact ih (alphaChar c) t₁' t₂ h.2

/-- No input (in particular no user-stated zodiac sign) title-cases to the
sentinel `"All signs"`: `str.title()` would capitalize the `s`. -/
theorem pyTitle_ne_all_signs (z : String) : pyTitle z ≠ "All signs" := by
  intro h
  have hd : pyTitleAux false z.data = "All signs".data := congrArg String.data h
  have hsplit : "All signs".data = ['A', 'l', 'l'] ++ ' ' :: 's' :: ['i', 'g', 'n', 's'] := rfl
  rw [hsplit] at hd
  exact pyTitleAux_no_space_s z.data false _ _ hd

/-- The identify endpoint's zodiac test never accepts the `"All signs"`
sentinel. -/
theorem zodiacMatch_clearQuartz_false (z : String) : zodiacMatch z clearQuartz = false := by
  have h := pyTitle_ne_all_signs z
  simp [zodiacMatch, clearQuartz, List.contains_cons, beq_eq_false_iff_ne, h]

theorem pyDictFind_isSome_iff_mem (d : List (String × String)) (k : String) :
    (pyDictFind d k).isSome = true ↔ k ∈ d.map Prod.fst := by
  induction d with
  | nil => simp [pyDictFind]
  | cons p t ih =>
    obtain ⟨a, b⟩ := p
    by_cases h : k = a <;> simp [pyDictFind, h, ih]

theorem pyDictFind_val_mem (d : List (String × String)) (k t : String)
    (h : pyDictFind d k = some t) : t ∈ d.map Prod.snd := by
  induction d with
  | nil => simp [pyDictFind] at h
  | cons p l ih =>
    obtain ⟨a, b⟩ := p
    by_cases hk : k = a
    · rw [pyDictFind, if_pos hk] at h
      injection h with h
      simp [h]
    · rw [pyDictFind, if_neg hk] at h
      simp [ih h]

/-- Clear Quartz (compatibility `["All signs"]`) appears in the horoscope
endpoint's compatible-crystal list for every sign. -/
theorem clearQuartz_mem_compat (sign : String) :
    clearQuartz.name ∈ (DEMO_CRYSTALS.filter (horoscopeCompatible sign)).map (·.name) := by
  refine List.mem_map_of_mem _ (List.mem_filter.mpr ⟨by decide, ?_⟩)
  simp [horoscopeCompatible, clearQuartz]

/-- Every horoscope text in the demo table is non-empty. -/
theorem DEMO_HOROSCOPES_vals_nonempty :
    ∀ x ∈ DEMO_HOROSCOPES.map Prod.snd, 0 < x.length := by decide

/-- A document written by `setDoc` is the only document at its key. -/
theorem filter_setDoc (db : FireDB) (k : String × String) (v : SavedDoc) :
    (setDoc db k v).filter (fun p => p.1 == k) = [(k, v)] := by
  simp only [setDoc, List.filter_cons]
  rw [if_pos (by simp)]
  rw [List.filter_filter]
  have : (db.filter fun p => (p.1 == k) && (p.1 != k)) = db.filter fun _ => false := by
    congr 1
    funext p
    cases hpk : p.1 == k <;> simp [bne, hpk]
  simp [this]

/-! ## Claim theorems -/

/-- Claim C1, counterexample: with the pro tier, Anthropic unconfigured
and OpenAI configured (Google unconfigured), `generate_response` fails
with the 503 dependency-unavailable error even though a vendor (OpenAI)
is configured — refuting "only when zero vendors are configured does
generate_response fail". -/
theorem llm_selection_counterexample :
    (LLMAvail.mk true false false).openai_available = true ∧
    generate_response ⟨true, false, false⟩ .pro none =
      .error ⟨503, "No LLM provider available"⟩ :=
  ⟨rfl, rfl⟩

/-- Claim C1, amended: with no vendor pinned, pro with Anthropic
configured selects Anthropic, premium with OpenAI configured selects
OpenAI, and the only fallback is Google; `generate_response` fails 503
exactly when Google is unconfigured and the tier-preferred branch does
not apply (which can happen with other vendors still configured). -/
theorem llm_selection_amended :
    ∀ (o a g : Bool) (tier : SubscriptionTier),
    (tier = .pro → a = true → generate_response ⟨o, a, g⟩ tier none = .ok .anthropic) ∧
    (tier = .premium → o = true → generate_response ⟨o, a, g⟩ tier none = .ok .openai) ∧
    (¬(tier = .pro ∧ a = true) → ¬(tier = .premium ∧ o = true) → g = true →
      generate_response ⟨o, a, g⟩ tier none = .ok .google) ∧
    (generate_response ⟨o, a, g⟩ tier none = .error ⟨503, "No LLM provider available"⟩ ↔
      g = false ∧ ¬(tier = .pro ∧ a = true) ∧ ¬(tier = .premium ∧ o = true)) := by
  refine fun o a g tier => ⟨?_, ?_, ?_, ?_⟩ <;>
    revert tier <;> revert g <;> revert a <;> revert o <;> decide

theorem llm_selection_amended_witness :
    generate_response ⟨false, true, false⟩ .pro none = .ok .anthropic :=
  (llm_selection_amended false true false .pro).1 rfl rfl

/-- Claim C2, counterexample: the description `"purple pink"` contains
Rose Quartz's color `"pink"` as a case-insensitive substring, yet
the scan returns Amethyst (whose color also occurs, earlier in table
order) — refuting "returns that entry" read for every matching entry. -/
theorem identify_match_counterexample :
    strContains (pyLower "purple pink") (pyLower roseQuartz.color) = true ∧
    roseQuartz ∈ DEMO_CRYSTALS ∧
    findBestMatch "purple pink" = amethyst ∧
    amethyst ≠ roseQuartz := by
  refine ⟨by decide, by decide, by decide, by decide⟩

/-- Claim C2, amended: the scan returns the first entry in fixed table
order (Amethyst, Rose Quartz, Clear Quartz) whose name or color occurs
case-insensitively in the description, and the first table entry
(Amethyst) when none matches. -/
theorem identify_match_amended (description : String) :
    (crystalMatches (pyLower description).data amethyst = true →
      findBestMatch description = amethyst) ∧
    (crystalMatches (pyLower description).data amethyst = false →
      crystalMatches (pyLower description).data roseQuartz = true →
      findBestMatch description = roseQuartz) ∧
    (crystalMatches (pyLower description).data amethyst = false →
      crystalMatches (pyLower description).data roseQuartz = false →
      crystalMatches (pyLower description).data clearQuartz = true →
      findBestMatch description = clearQuartz) ∧
    (crystalMatches (pyLower description).data amethyst = false →
      crystalMatches (pyLower description).data roseQuartz = false →
      crystalMatches (pyLower description).data clearQuartz = false →
      findBestMatch description = amethyst) := by
  unfold findBestMatch DEMO_CRYSTALS
  refine ⟨fun h1 => ?_, fun h1 h2 => ?_, fun h1 h2 h3 => ?_, fun h1 h2 h3 => ?_⟩ <;>
    simp_all [List.find?]

theorem identify_match_amended_witness :
    findBestMatch "pink stone" = roseQuartz :=
  (identify_match_amended "pink stone").2.1 (by decide) (by decide)

/-- Claim C3: every sign whose lower-casing is one of the twelve table
keys gets a non-empty horoscope text and a non-empty compatible-crystal
list; every other sign string gets the 400 invalid-input error. -/
theorem horoscope_contract (s : String) :
    (pyLower s ∈ DEMO_HOROSCOPES.map Prod.fst →
      ∃ r, demo_get_horoscope s = .ok r ∧ 0 < r.horoscope.length ∧
        r.compatible_crystals ≠ []) ∧
    (pyLower s ∉ DEMO_HOROSCOPES.map Prod.fst →
      demo_get_horoscope s = .error ⟨400, "Invalid zodiac sign"⟩) := by
  constructor
  · intro hmem
    have hsome : (pyDictFind DEMO_HOROSCOPES (pyLower s)).isSome = true :=
      (pyDictFind_isSome_iff_mem _ _).mpr hmem
    obtain ⟨t, ht⟩ := Option.isSome_iff_exists.mp hsome
    refine ⟨_, by rw [demo_get_horoscope, ht], ?_, ?_⟩
    · exact DEMO_HOROSCOPES_vals_nonempty t (pyDictFind_val_mem _ _ _ ht)
    · exact List.ne_nil_of_mem (clearQuartz_mem_compat (pyLower s))
  · intro hmem
    have hnone : pyDictFind DEMO_HOROSCOPES (pyLower s) = none := by
      cases hh : pyDictFind DEMO_HOROSCOPES (pyLower s) with
      | none => rfl
      | some t =>
        exact absurd ((pyDictFind_isSome_iff_mem _ _).mp (by rw [hh]; rfl)) hmem
    rw [demo_get_horoscope, hnone]

theorem horoscope_contract_witness :
    (∃ r, demo_get_horoscope "Aries" = .ok r ∧ 0 < r.horoscope.length ∧
      r.compatible_crystals ≠ []) ∧
    demo_get_horoscope "dragon" = .error ⟨400, "Invalid zodiac sign"⟩ :=
  ⟨(horoscope_contract "Aries").1 (by decide),
   (horoscope_contract "dragon").2 (by decide)⟩

set_option maxRecDepth 4000 in
/-- Claim C4, counterexample: the query `"anxious about love"` contains
`"love"` yet returns the stress-bucket paragraph (the buckets are
checked in priority order), refuting "every query containing love or
relationship returns the love-bucket paragraph". -/
theorem guidance_counterexample :
    strContains (pyLower "anxious about love") "love" = true ∧
    demo_guidance "anxious about love" 0 = stressGuidance ∧
    stressGuidance ≠ loveGuidance := by
  refine ⟨by decide, by decide, by decide⟩

/-- Claim C4, amended: bucket routing is deterministic in priority order
stress, then love, then transformation; a query matching an earlier
bucket's keywords gets that earlier bucket even if it also matches a
later one; a query matching none gets one of the four canned paragraphs
(chosen by the random oracle). -/
theorem guidance_amended (query : String) (r : Fin 4) :
    (stressBucket (pyLower query) = true →
      demo_guidance query r = stressGuidance) ∧
    (stressBucket (pyLower query) = false → loveBucket (pyLower query) = true →
      demo_guidance query r = loveGuidance) ∧
    (stressBucket (pyLower query) = false → loveBucket (pyLower query) = false →
      transformationBucket (pyLower query) = true →
      demo_guidance query r = transformationGuidance) ∧
    (stressBucket (pyLower query) = false → loveBucket (pyLower query) = false →
      transformationBucket (pyLower query) = false →
      demo_guidance query r ∈ DEMO_GUIDANCE_RESPONSES) := by
  unfold demo_guidance
  refine ⟨fun h1 => by simp [h1], fun h1 h2 => by simp [h1, h2],
    fun h1 h2 h3 => by simp [h1, h2, h3], fun h1 h2 h3 => by simp [h1, h2, h3, List.get_mem]⟩

theorem guidance_amended_witness :
    demo_guidance "stressful day" 0 = stressGuidance :=
  (guidance_amended "stressful day" 0).1 (by decide)

/-- Claim C5: a tier outside the configured price map fails 400 with the
external payments provider never called (call count 0), in both unified
and demo backends; for a recognised tier the provider is called exactly
once and the session's identifier and redirect URL are returned. -/
theorem checkout_contract (cfg : StripeCfg)
    (gw : String → Option String → Except String StripeSession)
    (tier : String) (user : UserP) (uuidHex : String) :
    (tier ∉ ["premium", "pro"] →
      create_subscription_checkout cfg gw tier user =
        (.error ⟨400, "Invalid subscription tier"⟩, 0)) ∧
    (tier = "premium" →
      (create_subscription_checkout cfg gw tier user).2 = 1 ∧
      ∀ s, gw user.id cfg.premium_price_id = .ok s →
        create_subscription_checkout cfg gw tier user = (.ok ⟨true, s.url, s.id⟩, 1)) ∧
    (tier = "pro" →
      (create_subscription_checkout cfg gw tier user).2 = 1 ∧
      ∀ s, gw user.id cfg.pro_price_id = .ok s →
        create_subscription_checkout cfg gw tier user = (.ok ⟨true, s.url, s.id⟩, 1)) ∧
    (tier ∉ ["premium", "pro", "founders"] →
      demo_create_subscription_checkout tier uuidHex =
        .error ⟨400, "Invalid subscription tier"⟩) := by
  refine ⟨fun hmem => ?_, fun hprem => ?_, fun hpro => ?_, fun hmem => ?_⟩
  · simp only [List.mem_cons, List.not_mem_nil, or_false, not_or] at hmem
    rw [create_subscription_checkout]
    rw [show priceFor cfg tier = none by
      simp [priceFor, price_id_map, hmem.1, hmem.2]]
  · subst hprem
    rw [create_subscription_checkout]
    rw [show priceFor cfg "premium" = some cfg.premium_price_id from rfl]
    constructor
    · cases hgw : gw user.id cfg.premium_price_id <;> simp [hgw]
    · intro s hs
      simp [hs]
  · subst hpro
    rw [create_subscription_checkout]
    rw [show priceFor cfg "pro" = some cfg.pro_price_id from rfl]
    constructor
    · cases hgw : gw user.id cfg.pro_price_id <;> simp [hgw]
    · intro s hs
      simp [hs]
  · simp only [List.mem_cons, List.not_mem_nil, or_false, not_or] at hmem
    rw [demo_create_subscription_checkout]
    rw [show pyDictFind demoPrices tier = none by
      simp [pyDictFind, demoPrices, hmem.1, hmem.2.1, hmem.2.2]]

theorem checkout_contract_witness :
    create_subscription_checkout ⟨some "price_prem", some "price_pro"⟩
      (fun _ _ => .ok ⟨"cs_1", "https://pay.example/1"⟩) "premium" sampleUser =
      (.ok ⟨true, "https://pay.example/1", "cs_1"⟩, 1) ∧
    create_subscription_checkout ⟨some "price_prem", some "price_pro"⟩
      (fun _ _ => .ok ⟨"cs_1", "https://pay.example/1"⟩) "gold" sampleUser =
      (.error ⟨400, "Invalid subscription tier"⟩, 0) :=
  ⟨((checkout_contract ⟨some "price_prem", some "price_pro"⟩
      (fun _ _ => .ok ⟨"cs_1", "https://pay.example/1"⟩) "premium" sampleUser "").2.1
      rfl).2 ⟨"cs_1", "https://pay.example/1"⟩ rfl,
   (checkout_contract ⟨some "price_prem", some "price_pro"⟩
      (fun _ _ => .ok ⟨"cs_1", "https://pay.example/1"⟩) "gold" sampleUser "").1 (by decide)⟩

/-- Claim C6: after a successful save, a collection-list call by the same
user returns a document whose `identification_id` equals the saved
entry's; and a list call whose path `user_id` differs from the
authenticated caller's id fails 403 for every storage state (so before
any storage read — even an unavailable store still yields 403). -/
theorem collection_roundtrip_and_ownership (u : UserP) (db : FireDB) (now : Nat)
    (r : SaveCrystalRequest) (db' : FireDB) (resp : SaveResp)
    (hsave : save_crystal_to_collection (some db) u now r = .ok (db', resp)) :
    (∃ c, get_user_crystal_collection u.id u (some db') = .ok c ∧
      ∃ d ∈ c.collection, d.identification_id = r.identification_id) ∧
    (∀ (caller : UserP) (uid : String), uid ≠ caller.id →
      ∀ dbOpt, get_user_crystal_collection uid caller dbOpt =
        .error ⟨403, "Not authorized to access this collection"⟩) := by
  constructor
  · rw [save_crystal_to_collection] at hsave
    injection hsave with hsave
    injection hsave with hdb hresp
    subst hdb
    have hget : get_user_crystal_collection u.id u
        (some (setDoc db (u.id, r.identification_id) (docOfRequest r u.id now))) =
        .ok ⟨true, u.id,
          ((setDoc db (u.id, r.identification_id) (docOfRequest r u.id now)).filter
            (fun p => p.1.1 == u.id)).map (·.2),
          (((setDoc db (u.id, r.identification_id) (docOfRequest r u.id now)).filter
            (fun p => p.1.1 == u.id)).map (·.2)).length⟩ := by
      rw [get_user_crystal_collection.eq_def, if_neg (by simp)]
    refine ⟨_, hget, docOfRequest r u.id now, ?_, rfl⟩
    show _ ∈ (List.filter _ _).map _
    exact List.mem_map_of_mem _
      (List.mem_filter.mpr ⟨List.mem_cons_self _ _, by simp⟩)
  · intro caller uid h dbOpt
    rw [get_user_crystal_collection.eq_def, if_pos h]

theorem collection_roundtrip_witness :
    get_user_crystal_collection "u1" ⟨"u2", "Bo", .free⟩ (some []) =
      .error ⟨403, "Not authorized to access this collection"⟩ :=
  (collection_roundtrip_and_ownership sampleUser [] 5 sampleReq _ _ rfl).2
    ⟨"u2", "Bo", .free⟩ "u1" (by decide) (some [])

/-- Claim C7: for every upstream generated text the unified identify
response is a success carrying the raw text — in the
`identification_raw` field when structured details were extracted,
otherwise untouched in the `identification` field. -/
theorem identify_parse_best_effort (cfg : UsageLimits) (tier : SubscriptionTier)
    (response identification_id : String) :
    (unified_identify_response cfg tier response identification_id).success = true ∧
    (∀ cd, (unified_identify_response cfg tier response identification_id).crystal_details = some cd →
      (unified_identify_response cfg tier response identification_id).identification_raw = some response) ∧
    ((unified_identify_response cfg tier response identification_id).crystal_details = none →
      (unified_identify_response cfg tier response identification_id).identification = some response) := by
  unfold unified_identify_response
  cases parseCrystalDetails response <;> simp

theorem identify_parse_best_effort_witness :
    (unified_identify_response ⟨5, 30, 999⟩ .free "Name: Amethyst" "id0").identification_raw =
      some "Name: Amethyst" :=
  (identify_parse_best_effort ⟨5, 30, 999⟩ .free "Name: Amethyst" "id0").2.1
    ⟨"Amethyst", "Name: Amethyst", [], [], []⟩ (by decide)

/-- Claim C8: a demo identify request whose `user_context` is an explicit
JSON `null` makes the handler dereference `None` (an uncaught
`AttributeError`, i.e. a 500), for every description; with any non-null
context map the handler succeeds. -/
theorem identify_null_context (img : Option String) (desc : String) :
    demo_identify_crystal ⟨img, desc, none⟩ = .error .attributeErrorNoneGet ∧
    ∀ ctx, ∃ resp, demo_identify_crystal ⟨img, desc, some ctx⟩ = .ok resp :=
  ⟨rfl, fun _ => ⟨_, rfl⟩⟩

/-- Claim C9: the identify endpoint's zodiac test is title-cased-sign
membership only, so when the matched entry is Clear Quartz (compatibility
`["All signs"]`) the returned flag is false for every user-stated sign;
the horoscope endpoint, by contrast, honors the sentinel and always lists
Clear Quartz as compatible. -/
theorem all_signs_sentinel (z desc s : String) :
    zodiacMatch z clearQuartz = false ∧
    (∀ (img : Option String) (ctx : List (String × String)),
      findBestMatch desc = clearQuartz →
      (demo_identify_crystal ⟨img, desc, some ctx⟩).map (·.zodiac_compatibility) = .ok false) ∧
    (pyLower s ∈ DEMO_HOROSCOPES.map Prod.fst →
      ∃ hr, demo_get_horoscope s = .ok hr ∧ clearQuartz.name ∈ hr.compatible_crystals) := by
  refine ⟨zodiacMatch_clearQuartz_false z, ?_, ?_⟩
  · intro img ctx hbest
    rw [demo_identify_crystal]
    rw [hbest]
    simp [Except.map, zodiacMatch_clearQuartz_false]
  · intro hmem
    have hsome : (pyDictFind DEMO_HOROSCOPES (pyLower s)).isSome = true :=
      (pyDictFind_isSome_iff_mem _ _).mpr hmem
    obtain ⟨t, ht⟩ := Option.isSome_iff_exists.mp hsome
    exact ⟨_, by rw [demo_get_horoscope, ht], clearQuartz_mem_compat (pyLower s)⟩

theorem all_signs_sentinel_witness :
    (demo_identify_crystal ⟨none, "clear stone", some [("zodiac_sign", "leo")]⟩).map
        (·.zodiac_compatibility) = .ok false ∧
    (∃ hr, demo_get_horoscope "leo" = .ok hr ∧ clearQuartz.name ∈ hr.compatible_crystals) :=
  ⟨(all_signs_sentinel "x" "clear stone" "leo").2.1 none [("zodiac_sign", "leo")] (by decide),
   (all_signs_sentinel "x" "clear stone" "leo").2.2 (by decide)⟩

/-- Claim C10: the saved document always carries the authenticated
caller's id and the server-assigned timestamp, whatever the request body
holds; the write is an upsert keyed by the caller-supplied
`identification_id`, and a second save with the same identifier leaves
exactly the second document at that key. -/
theorem save_doc_invariants (u : UserP) (db : FireDB) (now now2 : Nat)
    (r r2 : SaveCrystalRequest) :
    save_crystal_to_collection (some db) u now r =
      .ok (setDoc db (u.id, r.identification_id) (docOfRequest r u.id now),
           ⟨true, "Crystal saved to collection", r.identification_id⟩) ∧
    (docOfRequest r u.id now).user_id = u.id ∧
    (docOfRequest r u.id now).saved_at = now ∧
    save_crystal_to_collection
        (some (setDoc db (u.id, r.identification_id) (docOfRequest r u.id now))) u now2
        { r2 with identification_id := r.identification_id } =
      .ok (setDoc (setDoc db (u.id, r.identification_id) (docOfRequest r u.id now))
             (u.id, r.identification_id)
             (docOfRequest { r2 with identification_id := r.identification_id } u.id now2),
           ⟨true, "Crystal saved to collection", r.identification_id⟩) ∧
    (setDoc (setDoc db (u.id, r.identification_id) (docOfRequest r u.id now))
        (u.id, r.identification_id)
        (docOfRequest { r2 with identification_id := r.identification_id } u.id now2)).filter
        (fun p => p.1 == (u.id, r.identification_id)) =
      [((u.id, r.identification_id),
        docOfRequest { r2 with identification_id := r.identification_id } u.id now2)] :=
  ⟨rfl, rfl, rfl, rfl, filter_setDoc _ _ _⟩

end CrystalGrimoire
